import Mathlib

/-!
Verification of the puskapupu DX-cluster relay.

Shallow embedding of the program's two core source files:
- src/parser.rs — the chumsky-based DX-spot line grammar (`dxspider_grammar`, embedding `dxspider_parser`,
  `DxEntry`, `Activity`, `Source`);
- src/cqgma.rs — the relevance filter (`line_filter`), line normalisation,
  the login handshake (`login`) and the telnet session manager
  (`manage_telnet`).

Strings are modelled as `List Char`.  The chumsky combinators used by the
source are all of the shape `filter(pred).repeated()` with count bounds, plus
`just`, `or_not`, `padded`, `then`, `map` and `try_map`; each is embedded as a
function on `List Char` with the library's documented semantics: repetition is
greedy with no backtracking, `or_not` rewinds the input on failure, `padded`
skips `char::is_whitespace` characters on both sides, and `Parser::parse`
does not require the whole input to be consumed (trailing content after the
last field is ignored, as the repository's own test vectors with trailing
grid locators rely on).

Rust panics (the `unwrap` inside the frequency field's `map`) are modelled
explicitly by a third result constructor, so that "returns an error" and
"aborts" stay distinguishable.
-/

/-- Result of running an embedded chumsky parser on an input: success with the
remaining input, a parse error, or a Rust panic raised by a `map` closure. -/
inductive PResult (α : Type) where
  | ok (val : α) (rest : List Char)
  | err
  | panic
deriving DecidableEq, Repr

/-- An embedded chumsky parser over `char` input. -/
def PParser (α : Type) : Type := List Char → PResult α

/-- chumsky `just(c)` for a single character. -/
def pjust (c : Char) : PParser Char := fun input =>
  match input with
  | c2 :: rest => if c2 = c then .ok c rest else .err
  | [] => .err

/-- chumsky `just(lit)` for a literal character sequence. -/
def pjustSeq (lit : List Char) : PParser (List Char) := fun input =>
  if lit.isPrefixOf input then .ok lit (input.drop lit.length) else .err

/-- chumsky `filter(p).repeated()`: greedy run, zero or more matching chars. -/
def pfilterRepeated (p : Char → Bool) : PParser (List Char) := fun input =>
  .ok (input.takeWhile p) (input.dropWhile p)

/-- chumsky `filter(p).repeated().at_least(n)`: greedy run, error if the run
is shorter than `n`. -/
def pfilterAtLeast (p : Char → Bool) (n : Nat) : PParser (List Char) := fun input =>
  let tok := input.takeWhile p
  if n ≤ tok.length then .ok tok (input.dropWhile p) else .err

/-- chumsky `filter(p).repeated().exactly(n)`: consumes exactly `n` matching
characters, error if fewer than `n` are available. -/
def pfilterExactly (p : Char → Bool) (n : Nat) : PParser (List Char) := fun input =>
  if n ≤ input.length && (input.take n).all p then
    .ok (input.take n) (input.drop n)
  else .err

/-- chumsky `filter(p).repeated().at_most(n)`: greedy run capped at `n`. -/
def pfilterAtMost (p : Char → Bool) (n : Nat) : PParser (List Char) := fun input =>
  let tok := (input.takeWhile p).take n
  .ok tok (input.drop tok.length)

/-- chumsky `a.then(b)`: sequence, pairing the outputs. -/
def pthen {α β : Type} (p : PParser α) (q : PParser β) : PParser (α × β) := fun input =>
  match p input with
  | .ok a r =>
    match q r with
    | .ok b r2 => .ok (a, b) r2
    | .err => .err
    | .panic => .panic
  | .err => .err
  | .panic => .panic

/-- chumsky `a.then_ignore(b)`: sequence, keeping the first output. -/
def pthenIgnore {α β : Type} (p : PParser α) (q : PParser β) : PParser α := fun input =>
  match p input with
  | .ok a r =>
    match q r with
    | .ok _ r2 => .ok a r2
    | .err => .err
    | .panic => .panic
  | .err => .err
  | .panic => .panic

/-- chumsky `p.map(f)` for a pure closure `f`. -/
def pmap {α β : Type} (p : PParser α) (f : α → β) : PParser β := fun input =>
  match p input with
  | .ok a r => .ok (f a) r
  | .err => .err
  | .panic => .panic

/-- chumsky `p.ignored()`. -/
def pignored {α : Type} (p : PParser α) : PParser Unit := fun input =>
  match p input with
  | .ok _ r => .ok () r
  | .err => .err
  | .panic => .panic

/-- chumsky `p.try_map(f)` where the closure's `Err` becomes a parse error. -/
def ptryMap {α β : Type} (p : PParser α) (f : α → Option β) : PParser β := fun input =>
  match p input with
  | .ok a r =>
    match f a with
    | some b => .ok b r
    | none => .err
  | .err => .err
  | .panic => .panic

/-- chumsky `p.or_not()`: on failure of `p` the input is rewound and `none`
is produced; a panic inside `p` still aborts. -/
def porNot {α : Type} (p : PParser α) : PParser (Option α) := fun input =>
  match p input with
  | .ok a r => .ok (some a) r
  | .err => .ok none input
  | .panic => .panic

/-- Rust `char::is_whitespace` (the Unicode White_Space property), used by
chumsky's `padded()` and by `str::trim`. -/
def rustIsWhitespace (c : Char) : Bool :=
  let n := c.toNat
  (0x09 ≤ n && n ≤ 0x0D) || n == 0x20 || n == 0x85 || n == 0xA0 || n == 0x1680 ||
  (0x2000 ≤ n && n ≤ 0x200A) || n == 0x2028 || n == 0x2029 || n == 0x202F ||
  n == 0x205F || n == 0x3000

/-- chumsky `p.padded()`: skip whitespace before and after `p`. -/
def ppadded {α : Type} (p : PParser α) : PParser α := fun input =>
  match p (input.dropWhile rustIsWhitespace) with
  | .ok a r => .ok a (r.dropWhile rustIsWhitespace)
  | .err => .err
  | .panic => .panic

/-- Rust `char::is_ascii`. -/
def rustIsAscii (c : Char) : Bool := c.toNat ≤ 0x7F

/-!
## src/parser.rs — data model
-/

/-- `Activity` from src/parser.rs: the closed activity enumeration. -/
inductive Activity where
  | Wwff
  | Iota
  | Cota
  | Sota
  | Gma
  | Lighthouses
  | Rda
  | Agcw
deriving DecidableEq, Repr, Fintype

/-- `impl FromStr for Activity` from src/parser.rs (Rust `Result<_, ()>` is
modelled as `Option`). -/
def Activity.from_str : List Char → Option Activity
  | ['0', '1'] => some .Wwff
  | ['0', '2'] => some .Iota
  | ['0', '3'] => some .Cota
  | ['0', '4'] => some .Sota
  | ['0', '5'] => some .Gma
  | ['0', '6'] => some .Lighthouses
  | ['0', '7'] => some .Rda
  | ['0', '8'] => some .Agcw
  | _ => none

/-- `Source` from src/parser.rs: the closed spot-source enumeration. -/
inductive Source where
  | DxCluster
  | SmartWwff
  | GmaWatch
  | SmartGma
  | Rbn
  | SotaWatchRss
  | Rrt
  | UdxLog
  | VkSpots
  | WwffWatch
  | Sms
deriving DecidableEq, Repr, Fintype

/-- `impl FromStr for Source` from src/parser.rs. -/
def Source.from_str : List Char → Option Source
  | ['d'] => some .DxCluster
  | ['f'] => some .SmartWwff
  | ['g'] => some .GmaWatch
  | ['m'] => some .SmartGma
  | ['r'] => some .Rbn
  | ['s'] => some .SotaWatchRss
  | ['t'] => some .Rrt
  | ['u'] => some .UdxLog
  | ['v'] => some .VkSpots
  | ['w'] => some .WwffWatch
  | ['x'] => some .Sms
  | _ => none

/-- `DxEntry` from src/parser.rs.  The `frequency` field is `f32` in the
source, produced by `s.parse::<f32>().unwrap()` on the matched token; the
floating-point value itself is not modelled — the field keeps the numeric
token, and the `unwrap`'s panic is modelled by `PResult.panic` (see
`pmapParseF32Unwrap`). -/
structure DxEntry where
  reporter : List Char
  frequency : List Char
  dx : List Char
  cqgma_identifier : Option (Activity × Source)
  info : List Char
  timestamp : List Char
deriving DecidableEq, Repr

/-- Rust `char::is_ascii_digit` / `char::is_digit(10)`: the characters
`'0'`–`'9'`. -/
def rustIsAsciiDigit (c : Char) : Bool := '0' ≤ c && c ≤ '9'

/-- Whether Rust's `f32::from_str` succeeds on a token drawn from the
frequency field's alphabet (ASCII digits and `'.'`): such a token is valid
floating-point text exactly when it has at most one dot and at least one
digit (e.g. `"14044.0"`, `"1."`, `".5"` parse; `"..."`, `"1.2.3"` do not). -/
def f32FromStrOk (s : List Char) : Bool :=
  s.count '.' ≤ 1 && s.any rustIsAsciiDigit

/-- The frequency field's chumsky `map` closure
`|s: String| s.parse().unwrap()`: on text `f32::from_str` rejects, the
`unwrap` panics rather than failing the parse. -/
def pmapParseF32Unwrap (p : PParser (List Char)) : PParser (List Char) := fun input =>
  match p input with
  | .ok s r => if f32FromStrOk s then .ok s r else .panic
  | .err => .err
  | .panic => .panic

/-- Rust `char::is_alphabetic` restricted to ASCII (on every ASCII character
the two agree; the source only ever feeds this to single-letter source codes). -/
def rustIsAlphabetic (c : Char) : Bool :=
  ('a' ≤ c && c ≤ 'z') || ('A' ≤ c && c ≤ 'Z')

/-- Rust `str::trim` over `char::is_whitespace`, as applied to the INFO
field. -/
def rustTrim (s : List Char) : List Char :=
  ((s.dropWhile rustIsWhitespace).reverse.dropWhile rustIsWhitespace).reverse

/-!
## src/parser.rs — `dxspider_grammar`

Each local `let` binding of the Rust function becomes one definition below,
combined exactly as in the source.
-/

/-- The `callsign` sub-parser of the grammar:
`filter(|c| c.is_ascii() && *c != ':' && *c != ' ').repeated().collect()`. -/
def pCallsign : PParser (List Char) :=
  pfilterRepeated (fun c => rustIsAscii c && c != ':' && c != ' ')

/-- The `frequency` sub-parser of `dxspider_grammar`:
`filter(|c| c.is_ascii_digit() || *c == '.').repeated().at_least(3).collect()
.map(|s| s.parse().unwrap())`. -/
def pFrequency : PParser (List Char) :=
  pmapParseF32Unwrap (pfilterAtLeast (fun c => rustIsAsciiDigit c || c == '.') 3)

/-- The `activity` sub-parser inside `cqgma_identifier`: exactly 2 ASCII
digits, `try_map`-decoded via `Activity::from_str`. -/
def pActivity : PParser Activity :=
  ptryMap (pfilterExactly rustIsAsciiDigit 2) Activity.from_str

/-- The `source` sub-parser inside `cqgma_identifier`: exactly 1 alphabetic
character, `try_map`-decoded via `Source::from_str`. -/
def pSource : PParser Source :=
  ptryMap (pfilterExactly rustIsAlphabetic 1) Source.from_str

/-- The `cqgma_identifier` sub-parser of `dxspider_grammar`:
`just('x').ignored().then(activity).then(source).map(...)`. -/
def pCqgmaIdentifier : PParser (Activity × Source) :=
  pmap (pthen (pthen (pignored (pjust 'x')) pActivity) pSource)
    (fun v => (v.1.2, v.2))

/-- The `info` sub-parser of `dxspider_grammar`:
`filter(|c| c.is_ascii()).repeated().at_most(26).collect()
.map(|s| s.trim().to_string())`. -/
def pInfo : PParser (List Char) :=
  pmap (pfilterAtMost rustIsAscii 26) rustTrim

/-- The `timestamp` sub-parser of `dxspider_grammar`:
`text::digits(10).then_ignore(just("Z"))` — one or more decimal digits
followed by the literal `Z`. -/
def pTimestamp : PParser (List Char) :=
  pthenIgnore (pfilterAtLeast rustIsAsciiDigit 1) (pjustSeq ['Z'])

/-- `dxspider_parser` from src/parser.rs: the full spot-line grammar
`just("DX de").ignored().then(callsign.padded())
.then_ignore(just(':').or_not()).then(frequency.padded())
.then(callsign.padded()).then(cqgma_identifier.padded().or_not())
.then(info.padded()).then(timestamp.padded()).map(...)`. -/
def dxspider_grammar : PParser DxEntry :=
  pmap
    (pthen
      (pthen
        (pthen
          (pthen
            (pthen
              (pthenIgnore
                (pthen (pignored (pjustSeq "DX de".toList)) (ppadded pCallsign))
                (porNot (pjust ':')))
              (ppadded pFrequency))
            (ppadded pCallsign))
          (porNot (ppadded pCqgmaIdentifier)))
        (ppadded pInfo))
      (ppadded pTimestamp))
    (fun value =>
      let (value, timestamp) := value
      let (value, info) := value
      let (value, cqgma_identifier) := value
      let (value, dx) := value
      let (value, frequency) := value
      let (_, reporter) := value
      { reporter, frequency, dx, cqgma_identifier, info, timestamp })

/-- Outcome of `DxEntry::from_str`: the parsed entry, the collapsed error
(`Err(())` in the source), or a panic raised during parsing. -/
inductive ParseOutcome where
  | ok (entry : DxEntry)
  | err
  | panic
deriving DecidableEq, Repr

/-- `impl FromStr for DxEntry` from src/parser.rs:
`dxspider_parser().parse(s).map_err(|_| ())` — chumsky's `parse` does not
require the input to be fully consumed, so any remaining input is dropped. -/
def DxEntry.from_str (s : List Char) : ParseOutcome :=
  match dxspider_grammar s with
  | .ok e _ => .ok e
  | .err => .err
  | .panic => .panic

/-!
## src/cqgma.rs — relevance filter and line normalisation
-/

/-- Rust `char::to_lowercase` as used by `str::to_lowercase`, modelled on the
single-character level: ASCII `A`–`Z` map to `a`–`z`, everything else is kept
(multi-character Unicode expansions, which no ASCII character has, are not
modelled). -/
def rustCharToLowercase (c : Char) : Char :=
  if 'A' ≤ c && c ≤ 'Z' then Char.ofNat (c.toNat + 0x20) else c

/-- Rust `str::to_lowercase`. -/
def toLowercase (s : List Char) : List Char := s.map rustCharToLowercase

/-- Rust `str::contains(pat)` for a literal pattern: some drop of the
haystack starts with the pattern. -/
def containsSeq (hay pat : List Char) : Bool :=
  (List.range (hay.length + 1)).any (fun i => pat.isPrefixOf (hay.drop i))

/-- The index-8 test of `line_filter`:
`line.chars().nth(8) >= Some('0') && line.chars().nth(8) <= Some('9')`.
In Rust's `Option` ordering `None` is below every `Some`, so a line with no
character at index 8 fails both bounds cannot hold — here `none` is simply
`false`. -/
def nthIsAsciiDigit (line : List Char) (n : Nat) : Bool :=
  match line.get? n with
  | some c => '0' ≤ c && c ≤ '9'
  | none => false

/-- Body of `line_filter` from src/cqgma.rs, taking the already-lowercased
line (the Rust function shadows `line` with `line.to_lowercase()` first). -/
def line_filter_lowered (line : List Char) : Bool :=
  if !("dx de".toList.isPrefixOf line) then false
  else if ("dx de oh".toList.isPrefixOf line || "dx de og".toList.isPrefixOf line)
      && nthIsAsciiDigit line 8 then true
  else if containsSeq line "ohff-".toList then true
  else if containsSeq line "oh-".toList then true
  else false

/-- `line_filter` from src/cqgma.rs. -/
def line_filter (line : List Char) : Bool :=
  line_filter_lowered (toLowercase line)

/-- Rust `str::trim_end` (trailing `char::is_whitespace` characters removed),
as applied to inbound telnet lines. -/
def trim_end (s : List Char) : List Char :=
  (s.reverse.dropWhile rustIsWhitespace).reverse

/-- Rust `str::trim_end_matches('\x07')`: repeatedly removes the trailing
bell character, i.e. strips the whole trailing run of bells. -/
def trim_end_matches_bell (s : List Char) : List Char :=
  (s.reverse.dropWhile (fun c => c == '\x07')).reverse

/-- The inbound-line normalisation of `manage_telnet`
(`line.trim_end().trim_end_matches('\x07')`). -/
def normalize_line (s : List Char) : List Char :=
  trim_end_matches_bell (trim_end s)

/-- Modelled from the spec's words for comparison with `normalize_line`
(§4.3/§6: "Strip a single trailing carriage-control/bell character if
present" after removing trailing whitespace): at most ONE trailing bell is
removed. -/
def claim_normalize_line (s : List Char) : List Char :=
  match (trim_end s).reverse with
  | c :: r => if c = '\x07' then r.reverse else trim_end s
  | [] => trim_end s

/-!
## src/cqgma.rs — login handshake and session manager

`manage_telnet` is an asynchronous loop over a socket and two channels.  It
is embedded as a deterministic interpreter over an explicit environment: a
list of connection cycles, each carrying the outcome of `connect`, the data
observed by `login`, and the sequence of `tokio::select!` events of the
`Active` phase.  The interpreter returns an instrumented trace (connect
attempts, socket writes, forwarded lines, number of times the `Active` state
was entered) together with the function's return value — `none` while the
loop is still running when the environment is exhausted.
-/

/-- The fatal errors `manage_telnet` can return (each `return Err(...)` site
of the source). -/
inductive TelnetErr where
  /-- `io::ErrorKind::ConnectionAborted`, "couldn't login". -/
  | couldntLogin
  /-- `io::ErrorKind::BrokenPipe`, "telnet channel (rx) closed". -/
  | rxChannelClosed
  /-- `io::ErrorKind::BrokenPipe`, "telnet channel (tx) closed". -/
  | txChannelClosed
deriving DecidableEq, Repr

/-- What `login`'s `rx.read_until(b' ', &mut buf)` produced: an I/O failure,
or a buffer abstracted by its UTF-8 decoding (`none` when the bytes are not
valid UTF-8). -/
inductive LoginRead where
  | readFail
  | bytes (decoded : Option (List Char))
deriving DecidableEq, Repr

/-- `login` from src/cqgma.rs, abstracted over the socket: returns the lines
written to the socket on success (`Some`), or `none` for any of its error
exits (read failure, invalid UTF-8, a first token that does not start with
`login:`, or a failed username write, the latter modelled by `writeOk`). -/
def login (r : LoginRead) (writeOk : Bool) (username : List Char) :
    Option (List (List Char)) :=
  match r with
  | .readFail => none
  | .bytes (some s) =>
    if "login:".toList.isPrefixOf s then
      if writeOk then some [username ++ ['\n']] else none
    else none
  | .bytes none => none

/-- One `tokio::select!` event observed in the `Active` phase of
`manage_telnet`. -/
inductive SelectEvent where
  /-- `lines.next_line()` returned `Ok(Some(raw))`; `sendOk` says whether
  `telnet_rx.send` would succeed (the channel's receiver is still alive). -/
  | inboundLine (raw : List Char) (sendOk : Bool)
  /-- `lines.next_line()` returned `Ok(None)`: end of stream. -/
  | inboundEof
  /-- `lines.next_line()` returned `Err(..)`: logged, line skipped. -/
  | inboundErr
  /-- `telnet_tx.recv()` returned `Some(line)`; `writeOk` says whether the
  socket write succeeds. -/
  | outboundMsg (line : List Char) (writeOk : Bool)
  /-- `telnet_tx.recv()` returned `None`: the outbound channel is closed. -/
  | outboundClosed
deriving DecidableEq, Repr

/-- How the inner `'select` loop of `manage_telnet` ended. -/
inductive SelectEnd where
  /-- `break 'select`: connection considered lost, manager reconnects. -/
  | connLost
  /-- A `return Err(...)` was taken. -/
  | fatal (e : TelnetErr)
  /-- The event script ran out with the loop still in `Active`. -/
  | pending
deriving DecidableEq, Repr

/-- Instrumented result of the inner `'select` loop: lines forwarded on
`telnet_rx`, bytes written to the socket, and how the loop ended. -/
structure SelectTrace where
  forwarded : List (List Char)
  written : List (List Char)
  ending : SelectEnd
deriving DecidableEq, Repr

/-- The inner `'select` loop of `manage_telnet`, one event at a time. -/
def run_select : List SelectEvent → SelectTrace
  | [] => ⟨[], [], .pending⟩
  | e :: rest =>
    match e with
    | .inboundLine raw sendOk =>
      let line := normalize_line raw
      if line_filter line then
        if sendOk then
          let t := run_select rest
          ⟨line :: t.forwarded, t.written, t.ending⟩
        else ⟨[], [], .fatal .rxChannelClosed⟩
      else run_select rest
    | .inboundEof => ⟨[], [], .connLost⟩
    | .inboundErr => run_select rest
    | .outboundMsg line writeOk =>
      if writeOk then
        let t := run_select rest
        ⟨t.forwarded, (line ++ ['\n']) :: t.written, t.ending⟩
      else ⟨[], [], .connLost⟩
    | .outboundClosed => ⟨[], [], .fatal .txChannelClosed⟩

/-- One iteration of `manage_telnet`'s outer reconnect loop: either
`connect` failed (sleep and retry), or it succeeded and the cycle carries
what `login` observed and the `Active`-phase events. -/
inductive CycleEnv where
  | connectFail
  | connected (read : LoginRead) (loginWriteOk : Bool) (events : List SelectEvent)
deriving DecidableEq, Repr

/-- `manage_telnet`'s return type, Rust's `io::Result<()>` with the three
error values the function can construct. -/
inductive ManagerReturn where
  | ok
  | error (e : TelnetErr)
deriving DecidableEq, Repr

/-- Instrumented trace of a `manage_telnet` run: number of `connect`
attempts, all socket writes, how many times the `Active` state was entered,
all lines forwarded on `telnet_rx`, and the function's return value —
`none` while the loop is still running when the environment is exhausted,
`some (.error e)` for a `return Err(e)`.  The source has no `return Ok`
site, so `some .ok` is never produced. -/
structure ManageTrace where
  connectAttempts : Nat
  writes : List (List Char)
  activeCount : Nat
  forwarded : List (List Char)
  outcome : Option ManagerReturn
deriving DecidableEq, Repr

/-- `manage_telnet` from src/cqgma.rs as an interpreter over the cycle
environment.  The backoff sleeps (`rand_sleep`) only delay and are not
modelled. -/
def manage_telnet (username : List Char) : List CycleEnv → ManageTrace
  | [] => ⟨0, [], 0, [], none⟩
  | c :: rest =>
    match c with
    | .connectFail =>
      let t := manage_telnet username rest
      ⟨t.connectAttempts + 1, t.writes, t.activeCount, t.forwarded, t.outcome⟩
    | .connected r w evs =>
      match login r w username with
      | none => ⟨1, [], 0, [], some (.error .couldntLogin)⟩
      | some written =>
        let s := run_select evs
        match s.ending with
        | .fatal e => ⟨1, written ++ s.written, 1, s.forwarded, some (.error e)⟩
        | .pending => ⟨1, written ++ s.written, 1, s.forwarded, none⟩
        | .connLost =>
          let t := manage_telnet username rest
          ⟨1 + t.connectAttempts, written ++ s.written ++ t.writes,
            1 + t.activeCount, s.forwarded ++ t.forwarded, t.outcome⟩

/-!
## Claim-level views of the parser and filter
-/

/-- Whether `DxEntry::from_str` returns `Ok`. -/
def parse_succeeds (s : List Char) : Bool :=
  match DxEntry.from_str s with
  | .ok _ => true
  | _ => false

/-- The `cqgma_identifier` of a successfully parsed line (`none` also when
the parse does not succeed). -/
def parsed_cqgma (s : List Char) : Option (Activity × Source) :=
  match DxEntry.from_str s with
  | .ok e => e.cqgma_identifier
  | _ => none

/-- The `timestamp` of a successfully parsed line. -/
def parsed_timestamp (s : List Char) : Option (List Char) :=
  match DxEntry.from_str s with
  | .ok e => some e.timestamp
  | _ => none

/-- A well-formed spot line — the repository's first test vector — with the
4-character tag slot (`x04s` in the original) replaced by `tag`. -/
def spot_line (tag : List Char) : List Char :=
  "DX de HB9BIN:    14044.0  HB9BIN/P     ".toList ++ tag ++
    " HB/BL-001                 1049Z".toList

/-- A spot line with no `x`-tag at all (a further repository test vector,
with a trailing grid locator). -/
def no_tag_line : List Char :=
  "DX de ON4AVT:     7143.0  OT8S         bca on-2672                    0657Z JO10".toList

/-- The 2-digit wire code of each activity: the `Activity::from_str` match
arms read in reverse (`01 = Flora & Fauna` … `08 = AGCW`). -/
def activity_code : Activity → List Char
  | .Wwff => ['0', '1']
  | .Iota => ['0', '2']
  | .Cota => ['0', '3']
  | .Sota => ['0', '4']
  | .Gma => ['0', '5']
  | .Lighthouses => ['0', '6']
  | .Rda => ['0', '7']
  | .Agcw => ['0', '8']

/-- The 1-letter wire code of each source: the `Source::from_str` match arms
read in reverse (`d = DX Cluster` … `x = SMS`). -/
def source_letter : Source → Char
  | .DxCluster => 'd'
  | .SmartWwff => 'f'
  | .GmaWatch => 'g'
  | .SmartGma => 'm'
  | .Rbn => 'r'
  | .SotaWatchRss => 's'
  | .Rrt => 't'
  | .UdxLog => 'u'
  | .VkSpots => 'v'
  | .WwffWatch => 'w'
  | .Sms => 'x'

/-- Whether a `read_until` buffer decodes as UTF-8 text starting with the
literal `login:`. -/
def decodesToLoginPrompt : Option (List Char) → Bool
  | some s => "login:".toList.isPrefixOf s
  | none => false

/-!
## Shared helper lemmas
-/

/-- Removing a run from the end of a list (via reverse/dropWhile/reverse)
leaves a prefix of the list. -/
theorem reverse_dropWhile_reverse_isPre (p : Char → Bool) (l : List Char) :
    (l.reverse.dropWhile p).reverse <+: l := by
  have h : (l.reverse.dropWhile p).reverse <+: l.reverse.reverse :=
    List.reverse_prefix.mpr (List.dropWhile_suffix p)
  simpa using h

/-!
## Claims
-/

/-- C1, counterexample: a line carrying the literal tag `x99s` — `x` plus
exactly 2 digits plus 1 letter, with `99` mapping to no `Activity` — does
NOT fail the whole-line parse: it parses successfully with
`cqgma_identifier = None` (the tag sub-parser's failure is rewound by
`or_not` and the tag text is consumed as INFO). -/
theorem bad_activity_code_line_still_parses :
    parse_succeeds (spot_line "x99s".toList) = true ∧
    parsed_cqgma (spot_line "x99s".toList) = none := by
  exact ⟨rfl, rfl⟩

/-- C1, amended: the CQGMA tag is not all-or-nothing.  A well-formed
recognised tag yields the decoded pair; a tag whose code is unrecognised
(here `x04q`, `q` mapping to no `Source`) is backtracked over and the line
still parses with `cqgma_identifier = None`; a line with no tag at all also
parses with `None`. -/
theorem cqgma_tag_is_backtracked_not_all_or_nothing :
    parsed_cqgma (spot_line "x04s".toList) = some (.Sota, .SotaWatchRss) ∧
    parse_succeeds (spot_line "x04q".toList) = true ∧
    parsed_cqgma (spot_line "x04q".toList) = none ∧
    parse_succeeds no_tag_line = true ∧
    parsed_cqgma no_tag_line = none := by
  exact ⟨rfl, rfl, rfl, rfl, rfl⟩

/-- C2: `DxEntry::from_str` is NOT total — a frequency token of digit/dot
characters that is not valid floating-point text hits the
`s.parse::<f32>().unwrap()` inside the frequency field's `map` closure and
panics instead of returning a rejection.  Both a bare `...` and a `1.2.3`
frequency token abort the parse with a panic. -/
theorem frequency_unwrap_panics :
    DxEntry.from_str "DX de A ...".toList = .panic ∧
    DxEntry.from_str "DX de AD6VT: 1.2.3 AD6VT x04s W6/ND-101 1959Z".toList = .panic := by
  exact ⟨rfl, rfl⟩

/-- A line whose INFO region is exactly 26 characters wide followed by a
5-digit timestamp token. -/
def five_digit_ts_line : List Char :=
  "DX de A: 100.0 B CCCCCCCCCCCCCCCCCCCCCCCCCC 12345Z".toList

/-- C3, counterexample: the timestamp field is `text::digits(10)` — one or
more digits — not exactly 4: this line parses successfully with a 5-digit
timestamp. -/
theorem five_digit_timestamp_parses :
    parsed_timestamp five_digit_ts_line = some "12345".toList ∧
    ("12345".toList).length ≠ 4 := by
  exact ⟨rfl, by decide⟩

/-- Like `five_digit_ts_line` but with a 3-digit timestamp token. -/
def three_digit_ts_line : List Char :=
  "DX de A: 100.0 B CCCCCCCCCCCCCCCCCCCCCCCCCC 123Z".toList

/-- The repository's first test vector with the final `Z` removed. -/
def missing_z_line : List Char :=
  "DX de HB9BIN:    14044.0  HB9BIN/P     x04s HB/BL-001                 1049".toList

/-- C3, amended: the timestamp field is one-or-more digits followed by the
literal `Z`: a 4-digit token parses keeping its 4 digits, a line missing the
trailing `Z` fails to parse, but other digit counts (here 3) can also parse
successfully — the grammar does not enforce exactly 4. -/
theorem timestamp_is_digits_then_z :
    parsed_timestamp (spot_line "x04s".toList) = some "1049".toList ∧
    DxEntry.from_str missing_z_line = .err ∧
    parsed_timestamp three_digit_ts_line = some "123".toList := by
  exact ⟨rfl, rfl, rfl⟩

/-- C4, counterexample: a line that starts (lowercased) with `dx de oh`
whose character at index 8 is NOT an ASCII digit is nevertheless accepted by
`line_filter`, because control falls through to the `ohff-` substring check
— so acceptance for `dx de oh`/`dx de og` lines is not equivalent to the
index-8 digit test, and the later substring checks are not restricted to
other lines. -/
theorem oh_line_accepted_without_digit_at_8 :
    "dx de oh".toList.isPrefixOf (toLowercase "dx de ohff-0123".toList) = true ∧
    nthIsAsciiDigit (toLowercase "dx de ohff-0123".toList) 8 = false ∧
    line_filter "dx de ohff-0123".toList = true := by
  exact ⟨rfl, rfl, rfl⟩

/-- C4, amended: for every line that, lowercased, starts with `dx de oh` or
`dx de og`, `line_filter` accepts exactly when the character at index 8 is
an ASCII digit OR the line contains `ohff-` OR it contains `oh-` — the
substring checks still apply to these lines when the index-8 test fails. -/
theorem oh_og_line_filter_characterisation (l : List Char)
    (h : ("dx de oh".toList.isPrefixOf (toLowercase l) ||
          "dx de og".toList.isPrefixOf (toLowercase l)) = true) :
    line_filter l =
      (nthIsAsciiDigit (toLowercase l) 8 ||
       containsSeq (toLowercase l) "ohff-".toList ||
       containsSeq (toLowercase l) "oh-".toList) := by
  have hpre : "dx de".toList.isPrefixOf (toLowercase l) = true := by
    rw [Bool.or_eq_true] at h
    rcases h with h1 | h1
    · exact List.isPrefixOf_iff_prefix.mpr
        ((by decide : "dx de".toList <+: "dx de oh".toList).trans
          (List.isPrefixOf_iff_prefix.mp h1))
    · exact List.isPrefixOf_iff_prefix.mpr
        ((by decide : "dx de".toList <+: "dx de og".toList).trans
          (List.isPrefixOf_iff_prefix.mp h1))
  cases hd8 : nthIsAsciiDigit (toLowercase l) 8 <;>
    cases hc1 : containsSeq (toLowercase l) "ohff-".toList <;>
      cases hc2 : containsSeq (toLowercase l) "oh-".toList <;>
        simp only [line_filter, line_filter_lowered, hpre, h, hd8, hc1, hc2] <;> rfl

/-- C4, witness for the amended characterisation at a concrete repository
test line. -/
theorem oh_og_line_filter_characterisation_witness :
    line_filter "DX de OG0Z: test".toList =
      (nthIsAsciiDigit (toLowercase "DX de OG0Z: test".toList) 8 ||
       containsSeq (toLowercase "DX de OG0Z: test".toList) "ohff-".toList ||
       containsSeq (toLowercase "DX de OG0Z: test".toList) "oh-".toList) :=
  oh_og_line_filter_characterisation "DX de OG0Z: test".toList (by decide)

set_option maxHeartbeats 2000000 in
/-- C5: round trip of the decoding tables — for each of the 8 activity codes
`01`–`08` and each of the 11 source letters, a well-formed spot line
carrying the tag `x<code><letter>` parses with `cqgma_identifier` equal to
`Some` of exactly the corresponding `(Activity, Source)` pair. -/
theorem cqgma_tag_round_trip :
    ∀ (a : Activity) (s : Source),
      parsed_cqgma (spot_line ('x' :: (activity_code a ++ [source_letter s]))) =
        some (a, s) := by
  decide

/-- A greeting that does not start with `login:` makes `login` fail. -/
theorem login_fails_without_login_greeting (s : List Char) (w : Bool) (u : List Char)
    (h : "login:".toList.isPrefixOf s = false) :
    login (.bytes (some s)) w u = none := by
  have h2 : ¬ (['l', 'o', 'g', 'i', 'n', ':'] <+: s) := by
    intro hp
    have hb : "login:".toList.isPrefixOf s = true := List.isPrefixOf_iff_prefix.mpr hp
    rw [h] at hb
    exact Bool.noConfusion hb
  simp [login, h2]

/-- A greeting starting with `login:` makes `login` write `username\n`. -/
theorem login_writes_username_on_login_greeting (s : List Char) (u : List Char)
    (h : "login:".toList.isPrefixOf s = true) :
    login (.bytes (some s)) true u = some [u ++ ['\n']] := by
  have h2 : ['l', 'o', 'g', 'i', 'n', ':'] <+: s := List.isPrefixOf_iff_prefix.mp h
  simp [login, h2]

/-- C6: the login gate of `manage_telnet`.  If the bytes read up to the
first space do not decode as UTF-8 text starting with `login:`, the manager
returns the `couldn't login` error immediately — one single connect attempt,
nothing written, nothing forwarded, the `Active` state never entered, and
the remaining environment (`evs`, `rest`) never consulted, i.e. no retry.
If they do, the first socket write is the configured username followed by a
newline and the manager enters the `Active` relay state. -/
theorem manager_login_gate (u : List Char) (d : Option (List Char)) (w : Bool)
    (evs : List SelectEvent) (rest : List CycleEnv) :
    (decodesToLoginPrompt d = false →
      manage_telnet u (.connected (.bytes d) w evs :: rest) =
        ⟨1, [], 0, [], some (.error .couldntLogin)⟩) ∧
    (decodesToLoginPrompt d = true → w = true →
      (manage_telnet u (.connected (.bytes d) w evs :: rest)).writes.head? =
          some (u ++ ['\n']) ∧
      1 ≤ (manage_telnet u (.connected (.bytes d) w evs :: rest)).activeCount) := by
  constructor
  · intro h
    match d with
    | none => simp [manage_telnet, login]
    | some s =>
      simp only [decodesToLoginPrompt] at h
      simp [manage_telnet, login_fails_without_login_greeting s w u h]
  · intro h hw
    match d with
    | none => simp [decodesToLoginPrompt] at h
    | some s =>
      simp only [decodesToLoginPrompt] at h
      subst hw
      cases he : (run_select evs).ending <;>
        simp [manage_telnet, login_writes_username_on_login_greeting s u h, he]

/-- C6, witness: a concrete non-`login:` greeting is fatal with no retry,
and a concrete `login:` greeting makes the first write `user\n`. -/
theorem manager_login_gate_witness :
    manage_telnet "user".toList
        [.connected (.bytes (some "hello ".toList)) true [.inboundEof]] =
      ⟨1, [], 0, [], some (.error .couldntLogin)⟩ ∧
    (manage_telnet "user".toList
        [.connected (.bytes (some "login: ".toList)) true [.inboundEof]]).writes.head? =
      some ("user".toList ++ ['\n']) :=
  ⟨(manager_login_gate "user".toList (some "hello ".toList) true [.inboundEof] []).1
      (by decide),
    ((manager_login_gate "user".toList (some "login: ".toList) true [.inboundEof] []).2
      (by decide) rfl).1⟩

/-- C7, counterexample: inbound-line normalisation is
`trim_end().trim_end_matches('\x07')`, and `trim_end_matches` strips the
WHOLE trailing run of bell characters, not a single one: on `abc` followed
by two bells the code yields `abc`, while the claimed single-bell strip
would yield `abc` plus one bell. -/
theorem two_trailing_bells_both_stripped :
    normalize_line "abc\x07\x07".toList = "abc".toList ∧
    claim_normalize_line "abc\x07\x07".toList = "abc\x07".toList := by
  exact ⟨rfl, rfl⟩

/-- C7, amended: each inbound line is normalised by removing trailing
whitespace and then stripping ALL trailing bell characters (zero or more);
characters are only ever removed from the end of the line — the result is a
prefix of the original — and nothing else is altered. -/
theorem normalize_line_strips_trailing_ws_then_bells :
    (∀ l : List Char, normalize_line l <+: l) ∧
    normalize_line "ab\x07\x07".toList = "ab".toList ∧
    normalize_line "ab\x07  ".toList = "ab".toList ∧
    normalize_line "ab \x07".toList = "ab ".toList := by
  refine ⟨fun l => ?_, rfl, rfl, rfl⟩
  exact List.IsPrefix.trans
    (reverse_dropWhile_reverse_isPre (fun c => c == '\x07') (trim_end l))
    (reverse_dropWhile_reverse_isPre rustIsWhitespace l)

/-- C8: every string that does not begin, case-insensitively, with `dx de`
is rejected by `line_filter`. -/
theorem non_dx_de_lines_rejected (l : List Char)
    (h : "dx de".toList.isPrefixOf (toLowercase l) = false) :
    line_filter l = false := by
  unfold line_filter line_filter_lowered
  rw [h]
  rfl

/-- C8, witness at a concrete non-spot line. -/
theorem non_dx_de_lines_rejected_witness :
    line_filter "hello world".toList = false :=
  non_dx_de_lines_rejected "hello world".toList (by decide)

/-- C9: `line_filter` is total on short inputs — a line that (lowercased)
starts with `dx de oh` or `dx de og` but has no character at index 8 (its
length is 8) is rejected: the `chars().nth(8)` comparison observes `None`
and fails, and neither substring check fires on the 8-character line
itself. -/
theorem length_eight_oh_og_line_rejected (l : List Char)
    (h : ("dx de oh".toList.isPrefixOf (toLowercase l) ||
          "dx de og".toList.isPrefixOf (toLowercase l)) = true)
    (hlen : l.length = 8) :
    line_filter l = false := by
  have hm : (toLowercase l).length = 8 := by
    simpa [toLowercase] using hlen
  rw [Bool.or_eq_true] at h
  rcases h with h | h
  · have he : "dx de oh".toList = toLowercase l :=
      (List.isPrefixOf_iff_prefix.mp h).eq_of_length (by rw [hm]; rfl)
    calc line_filter l = line_filter_lowered (toLowercase l) := rfl
      _ = line_filter_lowered "dx de oh".toList := by rw [← he]
      _ = false := by decide
  · have he : "dx de og".toList = toLowercase l :=
      (List.isPrefixOf_iff_prefix.mp h).eq_of_length (by rw [hm]; rfl)
    calc line_filter l = line_filter_lowered (toLowercase l) := rfl
      _ = line_filter_lowered "dx de og".toList := by rw [← he]
      _ = false := by decide

/-- C9, witness: the 8-character line `DX de OH` itself. -/
theorem length_eight_oh_og_line_rejected_witness :
    line_filter "DX de OH".toList = false :=
  length_eight_oh_og_line_rejected "DX de OH".toList (by decide) (by decide)

/-- C10: `manage_telnet` never terminates successfully — whatever the
username and however the environment unfolds, when the interpreter
terminates its return value is an error; `Ok(())` is unreachable. -/
theorem manager_never_returns_ok (u : List Char) :
    ∀ env : List CycleEnv, (manage_telnet u env).outcome ≠ some .ok := by
  intro env
  induction env with
  | nil => simp [manage_telnet]
  | cons c rest ih =>
    cases c with
    | connectFail => simpa [manage_telnet] using ih
    | connected r w evs =>
      cases hl : login r w u with
      | none => simp [manage_telnet, hl]
      | some written =>
        cases he : (run_select evs).ending with
        | fatal e => simp [manage_telnet, hl, he]
        | pending => simp [manage_telnet, hl, he]
        | connLost => simpa [manage_telnet, hl, he] using ih
